import Mathlib

/-!
Verification of the deltachat-rpc-client wrapper (`chat.py`) and of the
RPC correlation core its spec describes.

The Python class `Chat` is embedded as a record of its three fields; each
method body is translated statement-by-statement into a small effect
language `Prog` that can read/write the object's state, invoke one remote
procedure via an oracle, and raise an error.  The rpc correlation core
(Correlator, PendingCall, drainOnClose) is not part of the given source
tree, so it is modelled from the spec where a claim needs it.
-/

/-- A JSON-serializable argument/result value, restricted to the shapes
the wrapper actually passes (integers and strings). -/
inductive Value where
  | int (n : Int)
  | str (s : String)
deriving DecidableEq, Repr

/-- A remote error payload, per the wire format `{code, message}`. -/
structure RpcError where
  code : Int
  message : String
deriving DecidableEq, Repr

/-- The behaviour of the remote rpc layer: for a method name and
positional params, either a result value or an error. -/
def Oracle : Type := String → List Value → Except RpcError Value

/-- Effect language for the Python method bodies: read the object state,
overwrite the object state, make one remote invocation, raise, or return.
An assignment `self.x = v` would translate to `setS`; the `Chat` methods
never use it because their bodies contain no assignments. -/
inductive Prog (σ : Type) (α : Type) where
  | pure (a : α)
  | getS (k : σ → Prog σ α)
  | setS (s : σ) (k : Prog σ α)
  | call (method : String) (params : List Value) (k : Except RpcError Value → Prog σ α)
  | raise (e : RpcError)

/-- Outcome of running a method body: the returned value or propagated
error, the final object state, and the list of remote invocations made
(method name with positional params, in order). -/
structure RunResult (σ α : Type) where
  result : Except RpcError α
  state : σ
  trace : List (String × List Value)
deriving Repr

/-- Interpreter for `Prog` against an rpc oracle. -/
def runProg {σ α : Type} : Prog σ α → σ → Oracle → RunResult σ α
  | .pure a, s, _ => ⟨.ok a, s, []⟩
  | .getS k, s, o => runProg (k s) s o
  | .setS s2 k, _, o => runProg k s2 o
  | .call m p k, s, o =>
    let r := runProg (k (o m p)) s o
    ⟨r.result, r.state, (m, p) :: r.trace⟩
  | .raise e, s, _ => ⟨.error e, s, []⟩

/-- The `Chat` handle: `__init__` stores exactly its three arguments.
`R` is the type of the rpc reference the handle carries. -/
structure Chat (R : Type) where
  rpc : R
  account_id : Int
  chat_id : Int
deriving DecidableEq, Repr

/-- The `Message` handle constructed by `Chat.send_text`:
`Message(self.rpc, self.account_id, msg_id)`. -/
structure Message (R : Type) where
  rpc : R
  account_id : Int
  msg_id : Value
deriving DecidableEq, Repr

/-- `Chat.block`: `await self.rpc.block_chat(self.account_id, self.chat_id)`,
returning `None`. -/
def Chat.block {R : Type} : Prog (Chat R) Unit :=
  .getS fun s => .call "block_chat" [.int s.account_id, .int s.chat_id] fun r =>
    match r with
    | .ok _ => .pure ()
    | .error e => .raise e

/-- `Chat.accept`: `await self.rpc.accept_chat(self.account_id, self.chat_id)`,
returning `None`. -/
def Chat.accept {R : Type} : Prog (Chat R) Unit :=
  .getS fun s => .call "accept_chat" [.int s.account_id, .int s.chat_id] fun r =>
    match r with
    | .ok _ => .pure ()
    | .error e => .raise e

/-- `Chat.delete`: `await self.rpc.delete_chat(self.account_id, self.chat_id)`,
returning `None`. -/
def Chat.delete {R : Type} : Prog (Chat R) Unit :=
  .getS fun s => .call "delete_chat" [.int s.account_id, .int s.chat_id] fun r =>
    match r with
    | .ok _ => .pure ()
    | .error e => .raise e

/-- `Chat.get_encryption_info`: returns the rpc result of
`get_chat_encryption_info(self.account_id, self.chat_id)` unchanged. -/
def Chat.get_encryption_info {R : Type} : Prog (Chat R) Value :=
  .getS fun s => .call "get_chat_encryption_info" [.int s.account_id, .int s.chat_id] fun r =>
    match r with
    | .ok v => .pure v
    | .error e => .raise e

/-- `Chat.send_text`: `msg_id = await self.rpc.misc_send_text_message(
self.account_id, self.chat_id, text)`, then
`return Message(self.rpc, self.account_id, msg_id)`. -/
def Chat.send_text {R : Type} (text : String) : Prog (Chat R) (Message R) :=
  .getS fun s =>
    .call "misc_send_text_message" [.int s.account_id, .int s.chat_id, .str text] fun r =>
      match r with
      | .ok msg_id => .pure ⟨s.rpc, s.account_id, msg_id⟩
      | .error e => .raise e

/-- `Chat.leave`: `await self.rpc.leave_group(self.account_id, self.chat_id)`,
returning `None`. -/
def Chat.leave {R : Type} : Prog (Chat R) Unit :=
  .getS fun s => .call "leave_group" [.int s.account_id, .int s.chat_id] fun r =>
    match r with
    | .ok _ => .pure ()
    | .error e => .raise e

/-- `Chat.get_fresh_message_count`: returns the rpc result of
`get_fresh_msg_cnt(self.account_id, self.chat_id)` unchanged. -/
def Chat.get_fresh_message_count {R : Type} : Prog (Chat R) Value :=
  .getS fun s => .call "get_fresh_msg_cnt" [.int s.account_id, .int s.chat_id] fun r =>
    match r with
    | .ok v => .pure v
    | .error e => .raise e

/-- Modelled from the spec: the resolution outcome of a PendingCall — the
matching Response's result value, its error payload, or transport loss
(the rpc correlation core is not part of the given source tree). -/
inductive Outcome where
  | ok (v : Value)
  | remoteError (e : RpcError)
  | transportLost
deriving DecidableEq, Repr

instance {ε α : Type} [DecidableEq ε] [DecidableEq α] : DecidableEq (Except ε α) := fun x y =>
  match x, y with
  | .ok a, .ok b =>
    if h : a = b then isTrue (by rw [h]) else isFalse (fun hc => h (Except.ok.inj hc))
  | .error a, .error b =>
    if h : a = b then isTrue (by rw [h]) else isFalse (fun hc => h (Except.error.inj hc))
  | .ok _, .error _ => isFalse (fun hc => Except.noConfusion hc)
  | .error _, .ok _ => isFalse (fun hc => Except.noConfusion hc)

/-- Modelled from the spec: a Response frame, `{id, result}` XOR
`{id, error}`. -/
structure Response where
  id : Nat
  payload : Except RpcError Value
deriving DecidableEq, Repr

/-- Modelled from the spec: how a Response payload resolves a
PendingCall. -/
def outcomeOf (p : Except RpcError Value) : Outcome :=
  match p with
  | .ok v => .ok v
  | .error e => .remoteError e

/-- Lookup of the outcome recorded for an id in a resolution record. -/
def lookupOutcome : List (Nat × Outcome) → Nat → Option Outcome
  | [], _ => none
  | (j, o) :: rest, i => if i = j then some o else lookupOutcome rest i

/-- Number of resolution-record entries carrying a given id. -/
def resolvedCount : List (Nat × Outcome) → Nat → Nat
  | [], _ => 0
  | (j, _) :: rest, i => (if j = i then 1 else 0) + resolvedCount rest i

/-- Modelled from the spec: the Correlator's state — the monotonically
increasing request-id counter, the set of pending ids (one PendingCall
per id), and the record of how each resolved id was resolved. -/
structure CorrState where
  nextId : Nat
  pending : List Nat
  resolved : List (Nat × Outcome)
deriving DecidableEq, Repr

/-- Modelled from the spec: `submit` allocates the next identifier,
registers a PendingCall under it, and bumps the counter. -/
def submit (s : CorrState) : Nat × CorrState :=
  (s.nextId,
   { s with nextId := s.nextId + 1, pending := s.nextId :: s.pending })

/-- Modelled from the spec: `onIncoming` — a message carrying a known
pending id resolves that PendingCall with its result/error and removes it
from the pending set; a message with an unknown id is dropped. -/
def onIncoming (s : CorrState) (r : Response) : CorrState :=
  if r.id ∈ s.pending then
    { s with pending := s.pending.erase r.id,
             resolved := (r.id, outcomeOf r.payload) :: s.resolved }
  else s

/-- Modelled from the spec: `drainOnClose` — force-resolves every
remaining PendingCall with a TransportLost failure, then clears the
pending set. -/
def drainOnClose (s : CorrState) : CorrState :=
  { s with pending := [],
           resolved :=
             s.pending.map (fun i => (i, Outcome.transportLost)) ++ s.resolved }

/-- Feeding a sequence of incoming responses to the Correlator. -/
def deliver (s : CorrState) (rs : List Response) : CorrState :=
  rs.foldl onIncoming s

/-- A Correlator operation within one connection lifetime. -/
inductive CorrOp where
  | submitOp
  | incomingOp (r : Response)
  | drainOp
deriving DecidableEq, Repr

/-- Running a sequence of Correlator operations, collecting the request
identifiers assigned to the submit operations in order. -/
def runOps : CorrState → List CorrOp → List Nat × CorrState
  | s, [] => ([], s)
  | s, .submitOp :: ops =>
    let p := submit s
    let q := runOps p.2 ops
    (p.1 :: q.1, q.2)
  | s, .incomingOp r :: ops => runOps (onIncoming s r) ops
  | s, .drainOp :: ops => runOps (drainOnClose s) ops

/-- How `Chat.block` runs against any oracle. -/
theorem runProg_block {R : Type} (c : Chat R) (o : Oracle) :
    runProg Chat.block c o =
      ⟨match o "block_chat" [.int c.account_id, .int c.chat_id] with
        | .ok _ => .ok ()
        | .error e => .error e,
       c, [("block_chat", [.int c.account_id, .int c.chat_id])]⟩ := by
  simp only [Chat.block, runProg]
  cases o "block_chat" [.int c.account_id, .int c.chat_id] <;> rfl

/-- How `Chat.accept` runs against any oracle. -/
theorem runProg_accept {R : Type} (c : Chat R) (o : Oracle) :
    runProg Chat.accept c o =
      ⟨match o "accept_chat" [.int c.account_id, .int c.chat_id] with
        | .ok _ => .ok ()
        | .error e => .error e,
       c, [("accept_chat", [.int c.account_id, .int c.chat_id])]⟩ := by
  simp only [Chat.accept, runProg]
  cases o "accept_chat" [.int c.account_id, .int c.chat_id] <;> rfl

/-- How `Chat.delete` runs against any oracle. -/
theorem runProg_delete {R : Type} (c : Chat R) (o : Oracle) :
    runProg Chat.delete c o =
      ⟨match o "delete_chat" [.int c.account_id, .int c.chat_id] with
        | .ok _ => .ok ()
        | .error e => .error e,
       c, [("delete_chat", [.int c.account_id, .int c.chat_id])]⟩ := by
  simp only [Chat.delete, runProg]
  cases o "delete_chat" [.int c.account_id, .int c.chat_id] <;> rfl

/-- How `Chat.get_encryption_info` runs against any oracle. -/
theorem runProg_get_encryption_info {R : Type} (c : Chat R) (o : Oracle) :
    runProg Chat.get_encryption_info c o =
      ⟨match o "get_chat_encryption_info" [.int c.account_id, .int c.chat_id] with
        | .ok v => .ok v
        | .error e => .error e,
       c, [("get_chat_encryption_info", [.int c.account_id, .int c.chat_id])]⟩ := by
  simp only [Chat.get_encryption_info, runProg]
  cases o "get_chat_encryption_info" [.int c.account_id, .int c.chat_id] <;> rfl

/-- How `Chat.send_text` runs against any oracle. -/
theorem runProg_send_text {R : Type} (c : Chat R) (o : Oracle) (text : String) :
    runProg (Chat.send_text text) c o =
      ⟨match o "misc_send_text_message" [.int c.account_id, .int c.chat_id, .str text] with
        | .ok msg_id => .ok ⟨c.rpc, c.account_id, msg_id⟩
        | .error e => .error e,
       c, [("misc_send_text_message", [.int c.account_id, .int c.chat_id, .str text])]⟩ := by
  simp only [Chat.send_text, runProg]
  cases o "misc_send_text_message" [.int c.account_id, .int c.chat_id, .str text] <;> rfl

/-- How `Chat.leave` runs against any oracle. -/
theorem runProg_leave {R : Type} (c : Chat R) (o : Oracle) :
    runProg Chat.leave c o =
      ⟨match o "leave_group" [.int c.account_id, .int c.chat_id] with
        | .ok _ => .ok ()
        | .error e => .error e,
       c, [("leave_group", [.int c.account_id, .int c.chat_id])]⟩ := by
  simp only [Chat.leave, runProg]
  cases o "leave_group" [.int c.account_id, .int c.chat_id] <;> rfl

/-- How `Chat.get_fresh_message_count` runs against any oracle. -/
theorem runProg_get_fresh_message_count {R : Type} (c : Chat R) (o : Oracle) :
    runProg Chat.get_fresh_message_count c o =
      ⟨match o "get_fresh_msg_cnt" [.int c.account_id, .int c.chat_id] with
        | .ok v => .ok v
        | .error e => .error e,
       c, [("get_fresh_msg_cnt", [.int c.account_id, .int c.chat_id])]⟩ := by
  simp only [Chat.get_fresh_message_count, runProg]
  cases o "get_fresh_msg_cnt" [.int c.account_id, .int c.chat_id] <;> rfl

/-- Claim C2: every public Chat operation is a single forward of one
remote method name with positional arguments beginning with the handle's
stored account_id and chat_id (followed by the operation's own arguments),
making exactly one RPC invocation per call — for every oracle behaviour. -/
theorem chat_ops_single_forward {R : Type} (c : Chat R) (o : Oracle) (text : String) :
    (runProg Chat.block c o).trace = [("block_chat", [.int c.account_id, .int c.chat_id])] ∧
    (runProg Chat.accept c o).trace = [("accept_chat", [.int c.account_id, .int c.chat_id])] ∧
    (runProg Chat.delete c o).trace = [("delete_chat", [.int c.account_id, .int c.chat_id])] ∧
    (runProg Chat.get_encryption_info c o).trace =
      [("get_chat_encryption_info", [.int c.account_id, .int c.chat_id])] ∧
    (runProg (Chat.send_text text) c o).trace =
      [("misc_send_text_message", [.int c.account_id, .int c.chat_id, .str text])] ∧
    (runProg Chat.leave c o).trace = [("leave_group", [.int c.account_id, .int c.chat_id])] ∧
    (runProg Chat.get_fresh_message_count c o).trace =
      [("get_fresh_msg_cnt", [.int c.account_id, .int c.chat_id])] := by
  refine ⟨?_, ?_, ?_, ?_, ?_, ?_, ?_⟩ <;>
    simp [runProg_block, runProg_accept, runProg_delete, runProg_get_encryption_info,
      runProg_send_text, runProg_leave, runProg_get_fresh_message_count]

/-- Claim C3: get_fresh_message_count returns exactly the result value the
engine's Response carries for the get_fresh_msg_cnt request on
(account_id, chat_id), unchanged. -/
theorem get_fresh_count_returns_engine_result {R : Type} (c : Chat R) (o : Oracle) (v : Value)
    (h : o "get_fresh_msg_cnt" [.int c.account_id, .int c.chat_id] = .ok v) :
    (runProg Chat.get_fresh_message_count c o).result = .ok v := by
  simp [runProg_get_fresh_message_count, h]

/-- Witness for C3: with account 7, chat 42 and an engine replying 3, the
call returns 3. -/
theorem get_fresh_count_returns_engine_result_witness :
    (runProg Chat.get_fresh_message_count (Chat.mk () 7 42)
      (fun _ _ => .ok (.int 3))).result = .ok (.int 3) :=
  get_fresh_count_returns_engine_result (Chat.mk () 7 42) (fun _ _ => .ok (.int 3))
    (.int 3) rfl

/-- Claim C4: send_text returns a Message handle carrying the same rpc
reference, the same account_id as the Chat, and exactly the message id the
remote misc_send_text_message call returned. -/
theorem send_text_returns_lightweight_handle {R : Type} (c : Chat R) (o : Oracle)
    (text : String) (v : Value)
    (h : o "misc_send_text_message" [.int c.account_id, .int c.chat_id, .str text] = .ok v) :
    (runProg (Chat.send_text text) c o).result = .ok ⟨c.rpc, c.account_id, v⟩ := by
  simp [runProg_send_text, h]

/-- Witness for C4: a concrete send_text run yields the handle
(rpc, account_id, returned message id). -/
theorem send_text_returns_lightweight_handle_witness :
    (runProg (Chat.send_text "hello") (Chat.mk () 7 42)
      (fun _ _ => .ok (.int 1234))).result = .ok ⟨(), 7, .int 1234⟩ :=
  send_text_returns_lightweight_handle (Chat.mk () 7 42) (fun _ _ => .ok (.int 1234))
    "hello" (.int 1234) rfl

/-- Claim C5: Chat handles are stateless facades — no operation modifies
the handle's rpc, account_id or chat_id fields, whatever the oracle
answers (success or error). -/
theorem chat_ops_stateless {R : Type} (c : Chat R) (o : Oracle) (text : String) :
    (runProg Chat.block c o).state = c ∧
    (runProg Chat.accept c o).state = c ∧
    (runProg Chat.delete c o).state = c ∧
    (runProg Chat.get_encryption_info c o).state = c ∧
    (runProg (Chat.send_text text) c o).state = c ∧
    (runProg Chat.leave c o).state = c ∧
    (runProg Chat.get_fresh_message_count c o).state = c := by
  refine ⟨?_, ?_, ?_, ?_, ?_, ?_, ?_⟩ <;>
    simp [runProg_block, runProg_accept, runProg_delete, runProg_get_encryption_info,
      runProg_send_text, runProg_leave, runProg_get_fresh_message_count]

/-- Claim C6: an error from the underlying rpc invocation is propagated
unchanged to the caller of each Chat operation — no method catches it, no
method retries, and the failing call still makes exactly one remote
invocation. -/
theorem chat_ops_propagate_errors {R : Type} (c : Chat R) (o : Oracle) (text : String)
    (e : RpcError) :
    (o "block_chat" [.int c.account_id, .int c.chat_id] = .error e →
      runProg Chat.block c o =
        ⟨.error e, c, [("block_chat", [.int c.account_id, .int c.chat_id])]⟩) ∧
    (o "accept_chat" [.int c.account_id, .int c.chat_id] = .error e →
      runProg Chat.accept c o =
        ⟨.error e, c, [("accept_chat", [.int c.account_id, .int c.chat_id])]⟩) ∧
    (o "delete_chat" [.int c.account_id, .int c.chat_id] = .error e →
      runProg Chat.delete c o =
        ⟨.error e, c, [("delete_chat", [.int c.account_id, .int c.chat_id])]⟩) ∧
    (o "get_chat_encryption_info" [.int c.account_id, .int c.chat_id] = .error e →
      runProg Chat.get_encryption_info c o =
        ⟨.error e, c, [("get_chat_encryption_info", [.int c.account_id, .int c.chat_id])]⟩) ∧
    (o "misc_send_text_message" [.int c.account_id, .int c.chat_id, .str text] = .error e →
      runProg (Chat.send_text text) c o =
        ⟨.error e, c,
         [("misc_send_text_message", [.int c.account_id, .int c.chat_id, .str text])]⟩) ∧
    (o "leave_group" [.int c.account_id, .int c.chat_id] = .error e →
      runProg Chat.leave c o =
        ⟨.error e, c, [("leave_group", [.int c.account_id, .int c.chat_id])]⟩) ∧
    (o "get_fresh_msg_cnt" [.int c.account_id, .int c.chat_id] = .error e →
      runProg Chat.get_fresh_message_count c o =
        ⟨.error e, c, [("get_fresh_msg_cnt", [.int c.account_id, .int c.chat_id])]⟩) := by
  refine ⟨fun h => ?_, fun h => ?_, fun h => ?_, fun h => ?_, fun h => ?_, fun h => ?_,
    fun h => ?_⟩ <;>
    simp [runProg_block, runProg_accept, runProg_delete, runProg_get_encryption_info,
      runProg_send_text, runProg_leave, runProg_get_fresh_message_count, h]

/-- Witness for C6: against an engine that answers every request with
error (-1, "chat not found"), each of the seven operations fails with
exactly that error and a one-element invocation trace. -/
theorem chat_ops_propagate_errors_witness :
    runProg Chat.block (Chat.mk () 7 42)
        (fun _ _ => .error ⟨-1, "chat not found"⟩) =
      ⟨.error ⟨-1, "chat not found"⟩, Chat.mk () 7 42,
       [("block_chat", [.int 7, .int 42])]⟩ ∧
    runProg Chat.accept (Chat.mk () 7 42)
        (fun _ _ => .error ⟨-1, "chat not found"⟩) =
      ⟨.error ⟨-1, "chat not found"⟩, Chat.mk () 7 42,
       [("accept_chat", [.int 7, .int 42])]⟩ ∧
    runProg Chat.delete (Chat.mk () 7 42)
        (fun _ _ => .error ⟨-1, "chat not found"⟩) =
      ⟨.error ⟨-1, "chat not found"⟩, Chat.mk () 7 42,
       [("delete_chat", [.int 7, .int 42])]⟩ ∧
    runProg Chat.get_encryption_info (Chat.mk () 7 42)
        (fun _ _ => .error ⟨-1, "chat not found"⟩) =
      ⟨.error ⟨-1, "chat not found"⟩, Chat.mk () 7 42,
       [("get_chat_encryption_info", [.int 7, .int 42])]⟩ ∧
    runProg (Chat.send_text "hi") (Chat.mk () 7 42)
        (fun _ _ => .error ⟨-1, "chat not found"⟩) =
      ⟨.error ⟨-1, "chat not found"⟩, Chat.mk () 7 42,
       [("misc_send_text_message", [.int 7, .int 42, .str "hi"])]⟩ ∧
    runProg Chat.leave (Chat.mk () 7 42)
        (fun _ _ => .error ⟨-1, "chat not found"⟩) =
      ⟨.error ⟨-1, "chat not found"⟩, Chat.mk () 7 42,
       [("leave_group", [.int 7, .int 42])]⟩ ∧
    runProg Chat.get_fresh_message_count (Chat.mk () 7 42)
        (fun _ _ => .error ⟨-1, "chat not found"⟩) =
      ⟨.error ⟨-1, "chat not found"⟩, Chat.mk () 7 42,
       [("get_fresh_msg_cnt", [.int 7, .int 42])]⟩ := by
  have T := chat_ops_propagate_errors (Chat.mk () 7 42)
    (fun _ _ => .error ⟨-1, "chat not found"⟩) "hi" ⟨-1, "chat not found"⟩
  obtain ⟨h1, h2, h3, h4, h5, h6, h7⟩ := T
  exact ⟨h1 rfl, h2 rfl, h3 rfl, h4 rfl, h5 rfl, h6 rfl, h7 rfl⟩

/-- Claim C9: block, accept, delete and leave always return None on
success, discarding whatever value the rpc invocation returned. -/
theorem void_ops_discard_result {R : Type} (c : Chat R) (o : Oracle) (v : Value) :
    (o "block_chat" [.int c.account_id, .int c.chat_id] = .ok v →
      (runProg Chat.block c o).result = .ok ()) ∧
    (o "accept_chat" [.int c.account_id, .int c.chat_id] = .ok v →
      (runProg Chat.accept c o).result = .ok ()) ∧
    (o "delete_chat" [.int c.account_id, .int c.chat_id] = .ok v →
      (runProg Chat.delete c o).result = .ok ()) ∧
    (o "leave_group" [.int c.account_id, .int c.chat_id] = .ok v →
      (runProg Chat.leave c o).result = .ok ()) := by
  refine ⟨fun h => ?_, fun h => ?_, fun h => ?_, fun h => ?_⟩ <;>
    simp [runProg_block, runProg_accept, runProg_delete, runProg_leave, h]

/-- Witness for C9: with an engine answering the non-None value 99, the
four void operations still return None. -/
theorem void_ops_discard_result_witness :
    (runProg Chat.block (Chat.mk () 7 42) (fun _ _ => .ok (.int 99))).result = .ok () ∧
    (runProg Chat.accept (Chat.mk () 7 42) (fun _ _ => .ok (.int 99))).result = .ok () ∧
    (runProg Chat.delete (Chat.mk () 7 42) (fun _ _ => .ok (.int 99))).result = .ok () ∧
    (runProg Chat.leave (Chat.mk () 7 42) (fun _ _ => .ok (.int 99))).result = .ok () := by
  have T := void_ops_discard_result (Chat.mk () 7 42) (fun _ _ => .ok (.int 99)) (.int 99)
  exact ⟨T.1 rfl, T.2.1 rfl, T.2.2.1 rfl, T.2.2.2 rfl⟩

/-- Claim C10: Chat construction performs no local validation — `__init__`
succeeds for every (rpc, account_id, chat_id) triple, storing the
arguments as-is (negative ids included); every operation forwards the
stored identifiers unchanged; and the only failure a Chat operation can
produce is one the rpc layer itself answered with. -/
theorem chat_no_local_validation {R : Type} (rpc : R) (a b : Int) (o : Oracle)
    (text : String) (e : RpcError) :
    (Chat.mk rpc a b).rpc = rpc ∧
    (Chat.mk rpc a b).account_id = a ∧
    (Chat.mk rpc a b).chat_id = b ∧
    ((runProg Chat.block (Chat.mk rpc a b) o).result = .error e →
      o "block_chat" [.int a, .int b] = .error e) ∧
    ((runProg Chat.accept (Chat.mk rpc a b) o).result = .error e →
      o "accept_chat" [.int a, .int b] = .error e) ∧
    ((runProg Chat.delete (Chat.mk rpc a b) o).result = .error e →
      o "delete_chat" [.int a, .int b] = .error e) ∧
    ((runProg Chat.get_encryption_info (Chat.mk rpc a b) o).result = .error e →
      o "get_chat_encryption_info" [.int a, .int b] = .error e) ∧
    ((runProg (Chat.send_text text) (Chat.mk rpc a b) o).result = .error e →
      o "misc_send_text_message" [.int a, .int b, .str text] = .error e) ∧
    ((runProg Chat.leave (Chat.mk rpc a b) o).result = .error e →
      o "leave_group" [.int a, .int b] = .error e) ∧
    ((runProg Chat.get_fresh_message_count (Chat.mk rpc a b) o).result = .error e →
      o "get_fresh_msg_cnt" [.int a, .int b] = .error e) := by
  refine ⟨rfl, rfl, rfl, fun h => ?_, fun h => ?_, fun h => ?_, fun h => ?_, fun h => ?_,
    fun h => ?_, fun h => ?_⟩
  · cases hc : o "block_chat" [.int a, .int b] <;>
      simp [runProg_block, hc] at h; simp [h]
  · cases hc : o "accept_chat" [.int a, .int b] <;>
      simp [runProg_accept, hc] at h; simp [h]
  · cases hc : o "delete_chat" [.int a, .int b] <;>
      simp [runProg_delete, hc] at h; simp [h]
  · cases hc : o "get_chat_encryption_info" [.int a, .int b] <;>
      simp [runProg_get_encryption_info, hc] at h; simp [h]
  · cases hc : o "misc_send_text_message" [.int a, .int b, .str text] <;>
      simp [runProg_send_text, hc] at h; simp [h]
  · cases hc : o "leave_group" [.int a, .int b] <;>
      simp [runProg_leave, hc] at h; simp [h]
  · cases hc : o "get_fresh_msg_cnt" [.int a, .int b] <;>
      simp [runProg_get_fresh_message_count, hc] at h; simp [h]

/-- Witness for C10: construction with negative ids succeeds and stores
them as-is, and a concrete failing run pins its error on the rpc layer. -/
theorem chat_no_local_validation_witness :
    (Chat.mk () (-7) (-42)).rpc = () ∧
    (Chat.mk () (-7) (-42)).account_id = -7 ∧
    (Chat.mk () (-7) (-42)).chat_id = -42 ∧
    ((fun (_ : String) (_ : List Value) =>
        (.error ⟨13, "no such chat"⟩ : Except RpcError Value)) "block_chat"
      [.int (-7), .int (-42)] = .error ⟨13, "no such chat"⟩) := by
  have T := chat_no_local_validation () (-7) (-42)
    (fun _ _ => .error ⟨13, "no such chat"⟩) "hi" ⟨13, "no such chat"⟩
  obtain ⟨h1, h2, h3, h4, -⟩ := T
  exact ⟨h1, h2, h3, h4 rfl⟩

/-- A response for a different id leaves an id pending. -/
theorem onIncoming_pending_of_ne {s : CorrState} {r : Response} {i : Nat}
    (h : r.id ≠ i) (hi : i ∈ s.pending) : i ∈ (onIncoming s r).pending := by
  unfold onIncoming
  split
  · exact (List.mem_erase_of_ne (fun he => h he.symm)).mpr hi
  · exact hi

/-- A response for a different id does not change what an id resolved to. -/
theorem onIncoming_lookup_of_ne {s : CorrState} {r : Response} {i : Nat} (h : r.id ≠ i) :
    lookupOutcome (onIncoming s r).resolved i = lookupOutcome s.resolved i := by
  unfold onIncoming
  split
  · simp [lookupOutcome, Ne.symm h]
  · rfl

/-- Delivering responses none of which carry an id leaves it pending. -/
theorem deliver_pending_of_notin {rs : List Response} {s : CorrState} {i : Nat}
    (hi : i ∈ s.pending) (h : ∀ x ∈ rs, x.id ≠ i) : i ∈ (deliver s rs).pending := by
  induction rs generalizing s with
  | nil => exact hi
  | cons r rs ih =>
    exact ih (onIncoming_pending_of_ne (h r (by simp)) hi)
      (fun x hx => h x (by simp [hx]))

/-- Delivering responses none of which carry an id does not change what
that id resolved to. -/
theorem deliver_lookup_of_notin {rs : List Response} {s : CorrState} {i : Nat}
    (h : ∀ x ∈ rs, x.id ≠ i) :
    lookupOutcome (deliver s rs).resolved i = lookupOutcome s.resolved i := by
  induction rs generalizing s with
  | nil => rfl
  | cons r rs ih =>
    rw [show deliver s (r :: rs) = deliver (onIncoming s r) rs from rfl,
      ih (fun x hx => h x (by simp [hx])), onIncoming_lookup_of_ne (h r (by simp))]

/-- A response whose id is pending resolves that id with its payload. -/
theorem onIncoming_resolves {s : CorrState} {r : Response} (hi : r.id ∈ s.pending) :
    lookupOutcome (onIncoming s r).resolved r.id = some (outcomeOf r.payload) := by
  unfold onIncoming
  rw [if_pos hi]
  simp [lookupOutcome]

/-- Claim C1: each call's result is the one carried by the Response whose
id equals the call's request id, regardless of the order responses arrive
in: however many unrelated responses come before or after, a pending id
resolves with exactly its own Response's payload. -/
theorem correlator_routes_by_id (s : CorrState) (rs1 rs2 : List Response) (r : Response)
    (i : Nat) (hp : i ∈ s.pending) (hid : r.id = i)
    (h1 : ∀ x ∈ rs1, x.id ≠ i) (h2 : ∀ x ∈ rs2, x.id ≠ i) :
    lookupOutcome (deliver s (rs1 ++ r :: rs2)).resolved i = some (outcomeOf r.payload) := by
  subst hid
  have hA : r.id ∈ (deliver s rs1).pending := deliver_pending_of_notin hp h1
  have e1 : deliver s (rs1 ++ r :: rs2) = deliver (onIncoming (deliver s rs1) r) rs2 := by
    simp [deliver, List.foldl_append]
  rw [e1, deliver_lookup_of_notin h2, onIncoming_resolves hA]

/-- Witness for C1: calls with ids 3 and 4 pending, responses arriving as
id 4 then id 3 — each id resolves with its own result. -/
theorem correlator_routes_by_id_witness :
    lookupOutcome (deliver ⟨5, [3, 4], []⟩
      [⟨4, .ok (.int 44)⟩, ⟨3, .ok (.int 33)⟩]).resolved 3 = some (.ok (.int 33)) ∧
    lookupOutcome (deliver ⟨5, [3, 4], []⟩
      [⟨4, .ok (.int 44)⟩, ⟨3, .ok (.int 33)⟩]).resolved 4 = some (.ok (.int 44)) := by
  constructor
  · exact correlator_routes_by_id ⟨5, [3, 4], []⟩ [⟨4, .ok (.int 44)⟩] []
      ⟨3, .ok (.int 33)⟩ 3 (by decide) rfl (by decide) (by decide)
  · exact correlator_routes_by_id ⟨5, [3, 4], []⟩ [] [⟨3, .ok (.int 33)⟩]
      ⟨4, .ok (.int 44)⟩ 4 (by decide) rfl (by decide) (by decide)

/-- Routing an incoming message never touches the id counter. -/
theorem onIncoming_nextId (s : CorrState) (r : Response) :
    (onIncoming s r).nextId = s.nextId := by
  unfold onIncoming
  split <;> rfl

/-- Draining on close never touches the id counter. -/
theorem drainOnClose_nextId (s : CorrState) : (drainOnClose s).nextId = s.nextId := rfl

/-- Along any operation sequence, every assigned id is at least the
starting counter value and the assigned ids are strictly increasing. -/
theorem runOps_ids_bound (ops : List CorrOp) (s : CorrState) :
    (∀ i ∈ (runOps s ops).1, s.nextId ≤ i) ∧
    ((runOps s ops).1).Pairwise (· < ·) := by
  induction ops generalizing s with
  | nil => exact ⟨fun i hi => absurd hi (List.not_mem_nil i), List.Pairwise.nil⟩
  | cons op ops ih =>
    cases op with
    | submitOp =>
      obtain ⟨ihm, ihp⟩ := ih (submit s).2
      refine ⟨?_, ?_⟩
      · intro i hi
        rcases List.mem_cons.mp hi with rfl | hi'
        · exact Nat.le_refl _
        · exact Nat.le_trans (Nat.le_succ _) (ihm i hi')
      · exact List.Pairwise.cons (fun j hj => Nat.lt_of_succ_le (ihm j hj)) ihp
    | incomingOp r =>
      have h := ih (onIncoming s r)
      rw [onIncoming_nextId] at h
      exact h
    | drainOp =>
      have h := ih (drainOnClose s)
      rw [drainOnClose_nextId] at h
      exact h

/-- Claim C7: within one connection lifetime the Correlator never assigns
the same request identifier twice — over any sequence of submit,
incoming-message and drain operations, the assigned ids come from a
monotonically increasing counter (strictly increasing list) and are
pairwise distinct. -/
theorem correlator_ids_never_reused (s : CorrState) (ops : List CorrOp) :
    ((runOps s ops).1).Pairwise (· < ·) ∧ ((runOps s ops).1).Nodup := by
  have h := runOps_ids_bound ops s
  exact ⟨h.2, h.2.imp (fun hlt => Nat.ne_of_lt hlt)⟩

/-- Resolution counts add over appended resolution records. -/
theorem resolvedCount_append (l1 l2 : List (Nat × Outcome)) (i : Nat) :
    resolvedCount (l1 ++ l2) i = resolvedCount l1 i + resolvedCount l2 i := by
  induction l1 with
  | nil => simp [resolvedCount]
  | cons p rest ih =>
    obtain ⟨j, o⟩ := p
    simp [resolvedCount, ih, Nat.add_assoc]

/-- Force-resolving a pending set not containing an id records nothing
for that id. -/
theorem resolvedCount_map_zero {pen : List Nat} {i : Nat} (h : i ∉ pen) :
    resolvedCount (pen.map fun j => (j, Outcome.transportLost)) i = 0 := by
  induction pen with
  | nil => rfl
  | cons j rest ih =>
    have hji : j ≠ i := fun he => h (by simp [he])
    have hir : i ∉ rest := fun hr => h (by simp [hr])
    simp [resolvedCount, hji, ih hir]

/-- Force-resolving a duplicate-free pending set records exactly one
entry for each pending id. -/
theorem resolvedCount_map_one {pen : List Nat} {i : Nat}
    (hN : pen.Nodup) (h : i ∈ pen) :
    resolvedCount (pen.map fun j => (j, Outcome.transportLost)) i = 1 := by
  induction pen with
  | nil => exact absurd h (List.not_mem_nil i)
  | cons j rest ih =>
    rcases List.mem_cons.mp h with rfl | hir
    · have hnr : i ∉ rest := (List.nodup_cons.mp hN).1
      simp [resolvedCount, resolvedCount_map_zero hnr]
    · have hji : j ≠ i := fun he => (List.nodup_cons.mp hN).1 (he ▸ hir)
      simp [resolvedCount, hji, ih (List.nodup_cons.mp hN).2 hir]

/-- Every id in the force-resolved pending set looks up as TransportLost. -/
theorem lookupOutcome_map_transportLost {pen : List Nat} {i : Nat} (h : i ∈ pen) :
    lookupOutcome (pen.map fun j => (j, Outcome.transportLost)) i =
      some Outcome.transportLost := by
  induction pen with
  | nil => exact absurd h (List.not_mem_nil i)
  | cons j rest ih =>
    by_cases hij : i = j
    · simp [lookupOutcome, hij]
    · have hir : i ∈ rest := by
        rcases List.mem_cons.mp h with he | hr
        · exact absurd he hij
        · exact hr
      simp [lookupOutcome, hij, ih hir]

/-- Lookup hits in the left part of an appended resolution record. -/
theorem lookupOutcome_append_left {l1 l2 : List (Nat × Outcome)} {i : Nat} {v : Outcome}
    (h : lookupOutcome l1 i = some v) : lookupOutcome (l1 ++ l2) i = some v := by
  induction l1 with
  | nil => exact absurd h (by simp [lookupOutcome])
  | cons p rest ih =>
    obtain ⟨j, o⟩ := p
    by_cases hij : i = j
    · simpa [lookupOutcome, hij] using h
    · rw [List.cons_append]
      rw [show lookupOutcome ((j, o) :: rest) i = lookupOutcome rest i by
        simp [lookupOutcome, hij]] at h
      simpa [lookupOutcome, hij] using ih h

/-- Claim C8: when the connection closes, drainOnClose force-resolves
every still-outstanding PendingCall with TransportLost exactly once and
empties the pending set, so no caller remains suspended. -/
theorem drain_resolves_all (s : CorrState) (i : Nat) (hN : s.pending.Nodup)
    (hi : i ∈ s.pending) (h0 : resolvedCount s.resolved i = 0) :
    (drainOnClose s).pending = [] ∧
    resolvedCount (drainOnClose s).resolved i = 1 ∧
    lookupOutcome (drainOnClose s).resolved i = some Outcome.transportLost := by
  refine ⟨rfl, ?_, ?_⟩
  · show resolvedCount (_ ++ s.resolved) i = 1
    rw [resolvedCount_append, resolvedCount_map_one hN hi, h0]
  · exact lookupOutcome_append_left (lookupOutcome_map_transportLost hi)

/-- Witness for C8: closing with ids 5 and 6 outstanding empties the
pending set and resolves id 5 with TransportLost exactly once. -/
theorem drain_resolves_all_witness :
    (drainOnClose ⟨9, [5, 6], [(2, Outcome.ok (Value.int 1))]⟩).pending = [] ∧
    resolvedCount (drainOnClose ⟨9, [5, 6], [(2, Outcome.ok (Value.int 1))]⟩).resolved 5 = 1 ∧
    lookupOutcome (drainOnClose ⟨9, [5, 6], [(2, Outcome.ok (Value.int 1))]⟩).resolved 5 =
      some Outcome.transportLost :=
  drain_resolves_all ⟨9, [5, 6], [(2, Outcome.ok (Value.int 1))]⟩ 5
    (by decide) (by decide) (by decide)
